import Mathlib

/-!
Verification of the conversation-orchestration core and chat clients of the
OSS VoC chatbot repository.

The repository ships the orchestration engine's configuration
(`chatbot_backend/configs/conversation_config.json`), the browser chat
clients (`client.html`, `frontend_deployment/chatbot.js`,
`chatbot_frontend/config.js`) and deployment scripts.  The engine itself is
consumed through its configuration and through the specification; the
clients are embedded directly from their JavaScript source.

Numeric confidence values are modelled as rationals; machine time is
modelled in minutes (sessions) or milliseconds (client waits) as plain
naturals.
-/

namespace OSSChatbot

/-! ## Configuration, embedded from conversation_config.json -/

/-- Embedded from conversation_config.json, `conversation_flow.issue_classification`. -/
structure IssueClassificationConfig where
  confidence_threshold : ℚ
  max_classification_attempts : Nat
deriving Repr

def issue_classification : IssueClassificationConfig :=
  { confidence_threshold := 7/10
    max_classification_attempts := 2 }

/-- Embedded from conversation_config.json, `conversation_flow.case_narrowing`. -/
structure CaseNarrowingConfig where
  confidence_threshold : ℚ
  max_questions_per_case : Nat
deriving Repr

def case_narrowing : CaseNarrowingConfig :=
  { confidence_threshold := 8/10
    max_questions_per_case := 4 }

/-- Embedded from conversation_config.json, `conversation_management`. -/
structure ConversationManagement where
  session_timeout_minutes : Nat
  max_conversation_turns : Nat
  context_retention_turns : Nat
  escalation_after_failed_attempts : Nat
deriving Repr

def conversation_management : ConversationManagement :=
  { session_timeout_minutes := 30
    max_conversation_turns := 20
    context_retention_turns := 10
    escalation_after_failed_attempts := 3 }

/-- Embedded from conversation_config.json, `fallback_responses`. -/
structure FallbackResponses where
  classification_unclear : String
  need_more_info : String
  escalation : String
  general_error : String
  session_timeout : String
  max_turns_reached : String
  llm_error : String
  search_error : String
  json_parse_error : String
  no_search_results : String
  timeout_error : String
  max_attempts_exceeded : String
  no_matching_cases : String
deriving Repr

def fallback_responses : FallbackResponses :=
  { classification_unclear := "문제를 파악하지 못했습니다. 구체적으로 어떤 일이 일어나고 있는지 좀 더 자세히 말씀해 주실 수 있나요?"
    need_more_info := "더 나은 도움을 드리기 위해 상황을 좀 더 명확히 이해해야 합니다."
    escalation := "이 문제는 직접적인 지원이 필요한 것 같습니다. 즉시 해결할 수 있는 담당자와 연결해 드리겠습니다."
    general_error := "요청을 처리하는 데 문제가 있습니다. 도움이 필요한 내용을 다시 설명해 주실 수 있나요?"
    session_timeout := "대화가 오랫동안 진행되지 않아 세션이 종료되었습니다. 새로운 질문이 있으시면 언제든지 말씀해 주세요."
    max_turns_reached := "대화가 많이 길어졌네요. 더 효율적인 도움을 위해 담당자와 연결해 드리겠습니다."
    llm_error := "시스템 응답 생성 중 오류가 발생했습니다. 잠시 후 다시 시도해주세요."
    search_error := "관련 정보를 검색하는 중 문제가 발생했습니다. 다시 한 번 문제를 설명해주시겠어요?"
    json_parse_error := "시스템 처리 중 기술적인 문제가 발생했습니다. 다른 방식으로 질문해주시면 도움을 드리겠습니다."
    no_search_results := "입력하신 내용과 관련된 정보를 찾을 수 없습니다. OSS 로그인이나 권한 관련 문제를 구체적으로 설명해주세요."
    timeout_error := "응답 시간이 초과되었습니다. 네트워크 상태를 확인하고 다시 시도해주세요."
    max_attempts_exceeded := "여러 번 시도했지만 문제를 해결할 수 없었습니다. 전문 상담원의 도움이 필요합니다."
    no_matching_cases := "해당 문제와 일치하는 구체적인 케이스를 찾을 수 없습니다. 발생하는 오류 메시지나 증상을 더 자세히 설명해주시겠어요?" }

/-! ## Session data model (spec §3) -/

/-- Session status, per spec §3. -/
inductive SessionStatus where
  | active
  | resolved
  | escalated
  | abandoned
  | timed_out
deriving DecidableEq, Repr

/-- One entry of the ordered candidate case list: case id plus confidence. -/
structure Candidate where
  case_id : String
  confidence : ℚ
deriving DecidableEq, Repr

/-- Modelled from the spec: the Session aggregate of §3 — identity, times
(in minutes), turn count, current issue type, ordered candidate case list,
resolved case id, status, per-stage failure counters and the asked-question
log.  Conversation history is not needed by any verified property and is
omitted. -/
structure Session where
  session_id : String
  created_at : Nat
  last_active_at : Nat
  turn_count : Nat
  current_issue_type : Option String
  candidate_cases : List Candidate
  resolved_case_id : Option String
  status : SessionStatus
  classification_failures : Nat
  questions_asked : List String
deriving DecidableEq, Repr

/-- Modelled from the spec: a fresh session created on first message for an
unseen session id, status `active` (§3 lifecycle, §4.1 contract). -/
def initialSession (id : String) (now : Nat) : Session :=
  { session_id := id
    created_at := now
    last_active_at := now
    turn_count := 0
    current_issue_type := none
    candidate_cases := []
    resolved_case_id := none
    status := SessionStatus.active
    classification_failures := 0
    questions_asked := [] }

/-! ## Session Store policies (spec §4.1) -/

/-- Modelled from the spec: the Session Store idle policy of §4.1 — on load,
if `now − last_active_at > session_timeout_minutes`, mark status `timed_out`,
clear current issue/candidates, and treat the incoming message as the start
of a new session while returning a timeout notice as part of the response.
The Session Store implementation is not in the repository sources; only its
configuration is. -/
def checkSessionTimeout (s : Session) (now : Nat) : Session × Option String :=
  if conversation_management.session_timeout_minutes < now - s.last_active_at then
    ({ s with
        status := SessionStatus.timed_out
        current_issue_type := none
        candidate_cases := []
        resolved_case_id := none },
      some fallback_responses.session_timeout)
  else
    (s, none)

/-- Modelled from the spec: the per-message pipeline entry of §4.1 — load-time
idle check, then the turn-budget policy: if
`turn_count ≥ max_conversation_turns`, force status `escalated` and
short-circuit directly to the escalation fallback message.  The remainder of
the pipeline (continuity → classification → narrowing → formulation) is
passed in as `rest`, so short-circuiting is visible as independence from
`rest`. -/
def processMessage (s : Session) (now : Nat) (rest : Session → Session × String) :
    Session × String :=
  let loaded := checkSessionTimeout s now
  let s1 := loaded.1
  if conversation_management.max_conversation_turns ≤ s1.turn_count then
    ({ s1 with status := SessionStatus.escalated }, fallback_responses.max_turns_reached)
  else
    let done := rest s1
    match loaded.2 with
    | some notice => (done.1, notice ++ "\n" ++ done.2)
    | none => done

/-! ## Issue Classifier (spec §4.3) -/

/-- One raw result of a classification call to the language model: either
malformed output (failed strict JSON-schema validation), or a parsed
`issue_type`/`confidence` pair (the issue type may be null). -/
inductive LLMResult where
  | malformed
  | classified (issue_type : Option String) (confidence : ℚ)
deriving DecidableEq, Repr

/-- Modelled from the spec: strict schema validation of a confidence value —
the model is untrusted and the schema requires a number in [0,1] (§6, and
the classification prompt's `0.0-1.0`); out-of-range values are rejected
as malformed. -/
def validateConfidence (c : ℚ) : Option ℚ :=
  if 0 ≤ c ∧ c ≤ 1 then some c else none

/-- Modelled from the spec: the acceptance rule of §4.3 for one
classification call — accept the issue type only when it is non-null, the
confidence passes schema validation, and
`confidence ≥ classification_confidence_threshold`; every other outcome
(malformed output included) is a failed attempt. -/
def classifyStep : LLMResult → Option (String × ℚ)
  | LLMResult.malformed => none
  | LLMResult.classified none _ => none
  | LLMResult.classified (some t) conf =>
    match validateConfidence conf with
    | none => none
    | some c =>
      if issue_classification.confidence_threshold ≤ c then some (t, c) else none

/-- Modelled from the spec: the classification stage consumes model outputs
one call at a time, incrementing the per-session classification failure
counter on each rejected or malformed output and retrying until an output
is accepted or the supplied outputs are exhausted.  Returns the accepted
`(issue_type, confidence)` (or `none`) and the updated failure counter. -/
def classifyConsume : Nat → List LLMResult → Option (String × ℚ) × Nat
  | failures, [] => (none, failures)
  | failures, r :: rs =>
    match classifyStep r with
    | some tc => (some tc, failures)
    | none => classifyConsume (failures + 1) rs

/-- Modelled from the spec: one classification turn — the call is retried up
to `max_classification_attempts` times, so at most that many model outputs
are consumed. -/
def classifyTurn (failures : Nat) (outs : List LLMResult) : Option (String × ℚ) × Nat :=
  classifyConsume failures (outs.take issue_classification.max_classification_attempts)

/-- Modelled from the spec: applying one classification turn to the session —
on acceptance, `current_issue_type` is set and the pipeline continues (no
fallback reply); once attempts are exhausted without acceptance, the reply
is the clarification fallback and `current_issue_type` remains unset. -/
def applyClassification (s : Session) (outs : List LLMResult) : Session × Option String :=
  match classifyTurn s.classification_failures outs with
  | (some (t, _), f) =>
    ({ s with current_issue_type := some t, classification_failures := f }, none)
  | (none, f) =>
    ({ s with classification_failures := f },
      some fallback_responses.classification_unclear)

/-! ## Topic Continuity Classifier (spec §4.2) -/

/-- One raw result of a topic-continuity call: malformed output, or a parsed
`is_continuation` flag with a reason string. -/
inductive ContinuityResult where
  | malformed
  | parsed (continuation : Bool) (reason : String)
deriving DecidableEq, Repr

/-- Modelled from the spec: interpreting one topic-continuity output (§4.2) —
a parsed result is used as is; malformed output defaults to
`is_continuation = true` with a parse failure logged.  Returns
`(is_continuation, parse_failure_logged)`. -/
def analyzeContinuity : ContinuityResult → Bool × Bool
  | ContinuityResult.parsed b _ => (b, false)
  | ContinuityResult.malformed => (true, true)

/-- Modelled from the spec: the topic-continuity stage makes exactly one model
call — it consumes the first available output and never retries (§4.2: this
stage has no retry budget).  A continuation verdict keeps the session's
issue state; a new-topic verdict clears it for reclassification.  Returns
the updated session, whether a parse failure was logged, and the model
outputs left unconsumed. -/
def applyContinuity (s : Session) (outs : List ContinuityResult) :
    Session × Bool × List ContinuityResult :=
  match outs with
  | [] => (s, false, [])
  | r :: rest =>
    let verdict := analyzeContinuity r
    (if verdict.1 then s
     else { s with
        current_issue_type := none
        candidate_cases := []
        resolved_case_id := none },
      verdict.2, rest)

/-! ## Case Narrower (spec §4.4) -/

/-- Outcome of one narrowing resolution step (§4.4 step 4). -/
inductive NarrowingAction where
  | noMatch
  | resolve (case_id : String)
  | ask (question : String)
  | escalate
deriving DecidableEq, Repr

/-- Modelled from the spec: the resolution policy of §4.4 step 4 over the
session's candidate list (sorted descending, so its head is `top`):
no candidate clears the minimum confidence `floor` — "no matching cases";
exactly one candidate at or above the resolution confidence threshold
(`case_narrowing.confidence_threshold`, 0.8) with no other candidate within
the tie-break `margin` of it — resolve to that candidate; otherwise ask one
not-yet-asked clarifying question while fewer than
`max_questions_per_case` questions have been asked, and escalate once the
question budget is exhausted.  The spec fixes no numeric value for the
floor or the margin, so both are parameters.

`clearWinner` is the spec's "exactly one candidate at or above the
resolution confidence threshold with no other candidate within the
tie-break margin of it", stated over the head of the descending-sorted
candidate list. -/
def clearWinner (margin : ℚ) (top : Candidate) (others : List Candidate) : Prop :=
  case_narrowing.confidence_threshold ≤ top.confidence ∧
    (∀ c ∈ others, c.confidence < case_narrowing.confidence_threshold) ∧
    (∀ c ∈ others, c.confidence + margin < top.confidence)

instance (margin : ℚ) (top : Candidate) (others : List Candidate) :
    Decidable (clearWinner margin top others) := by
  unfold clearWinner
  infer_instance

/-- Modelled from the spec: the §4.4 step 4 resolution decision; see
`clearWinner` above for the resolution condition. -/
def narrowStep (floor margin : ℚ) (s : Session) (questions : List String) :
    NarrowingAction :=
  match s.candidate_cases with
  | [] => NarrowingAction.noMatch
  | top :: others =>
    if top.confidence < floor then NarrowingAction.noMatch
    else if clearWinner margin top others then
      NarrowingAction.resolve top.case_id
    else if s.questions_asked.length < case_narrowing.max_questions_per_case then
      match questions.find? (fun q => !s.questions_asked.contains q) with
      | some q => NarrowingAction.ask q
      | none => NarrowingAction.escalate
    else
      NarrowingAction.escalate

/-- Modelled from the spec: which pipeline stage a narrowing action hands the
turn to — a resolution advances to Reply Formulation on the solution path
(§4.4); a question goes out through the disambiguation render mode. -/
inductive NextStage where
  | replyFormulationSolution (case_id : String)
  | replyFormulationDisambiguation (question : String)
  | fallbackReply
  | escalated
deriving DecidableEq, Repr

/-- Modelled from the spec: dispatch of a narrowing action (§4.4/§4.5). -/
def nextStageOf : NarrowingAction → NextStage
  | NarrowingAction.noMatch => NextStage.fallbackReply
  | NarrowingAction.resolve cid => NextStage.replyFormulationSolution cid
  | NarrowingAction.ask q => NextStage.replyFormulationDisambiguation q
  | NarrowingAction.escalate => NextStage.escalated

/-! ## Candidate list construction and session reachability (spec §3, §4.4) -/

/-- Descending order on candidates: an earlier entry's confidence is at
least a later entry's. -/
def candGE (a b : Candidate) : Prop := b.confidence ≤ a.confidence

instance : DecidableRel candGE := fun a b =>
  inferInstanceAs (Decidable (b.confidence ≤ a.confidence))

instance : IsTotal Candidate candGE :=
  ⟨fun a b => le_total b.confidence a.confidence⟩

instance : IsTrans Candidate candGE :=
  ⟨fun _ _ _ hab hbc => le_trans hbc hab⟩

/-- Modelled from the spec: case matching (§4.4 step 3) — every raw
`(case_id, confidence)` match from the model passes strict schema
validation of its confidence, and the resulting candidate list is sorted
descending by confidence. -/
def buildCandidates (raw : List (String × ℚ)) : List Candidate :=
  List.insertionSort candGE
    (raw.filterMap (fun p => (validateConfidence p.2).map (fun c => Candidate.mk p.1 c)))

/-- Modelled from the spec: the narrowing stage replacing the session's
candidate list with the freshly matched cases (§4.4 step 3). -/
def setCandidates (s : Session) (raw : List (String × ℚ)) : Session :=
  { s with candidate_cases := buildCandidates raw }

/-- Modelled from the spec: logging one asked disambiguation question so it
is never repeated (§4.4/§4.5). -/
def recordQuestion (s : Session) (q : String) : Session :=
  { s with questions_asked := s.questions_asked ++ [q] }

/-- Modelled from the spec: committing a resolution to a case (§4.4). -/
def markResolved (s : Session) (cid : String) : Session :=
  { s with resolved_case_id := some cid, status := SessionStatus.resolved }

/-- Modelled from the spec: accepting one user message — the turn counter
increments and the last-active time advances (§3 invariants). -/
def touchSession (s : Session) (now : Nat) : Session :=
  { s with turn_count := s.turn_count + 1, last_active_at := now }

/-- Modelled from the spec: session states reachable from a fresh session by
the mutating operations of the pipeline (§3 lifecycle): idle-timeout reset,
forced escalation, topic-continuity verdicts, classification turns,
candidate replacement by case matching, question logging, resolution, and
accepted-message bookkeeping. -/
inductive Reachable : Session → Prop where
  | init (id : String) (now : Nat) : Reachable (initialSession id now)
  | timeout (s : Session) (now : Nat) :
      Reachable s → Reachable (checkSessionTimeout s now).1
  | forceEscalate (s : Session) :
      Reachable s → Reachable { s with status := SessionStatus.escalated }
  | continuity (s : Session) (rs : List ContinuityResult) :
      Reachable s → Reachable (applyContinuity s rs).1
  | classify (s : Session) (outs : List LLMResult) :
      Reachable s → Reachable (applyClassification s outs).1
  | matchCases (s : Session) (raw : List (String × ℚ)) :
      Reachable s → Reachable (setCandidates s raw)
  | askQuestion (s : Session) (q : String) :
      Reachable s → Reachable (recordQuestion s q)
  | resolve (s : Session) (cid : String) :
      Reachable s → Reachable (markResolved s cid)
  | acceptTurn (s : Session) (now : Nat) :
      Reachable s → Reachable (touchSession s now)

/-! ## Browser chat client
(frontend_deployment/chatbot.js, chatbot_frontend/config.js, client.html) -/

/-- Embedded from chatbot_frontend/config.js, `ChatbotConfig.api` request
configuration (the inline client of client.html carries the same
`maxRetries = 3`, `retryDelay = 1000`). -/
structure ChatbotApiConfig where
  timeout : Nat
  maxRetries : Nat
  retryDelay : Nat
deriving Repr

def ChatbotConfig_api : ChatbotApiConfig :=
  { timeout := 30000
    maxRetries := 3
    retryDelay := 1000 }

/-- Embedded from chatbot_frontend/config.js,
`ChatbotConfig.ui.messages.generalError`. -/
def generalError : String :=
  "죄송합니다. 일시적인 오류가 발생했습니다. 잠시 후 다시 시도해주세요."

/-- Embedded from chatbot_frontend/config.js,
`ChatbotConfig.features.retryOnError`. -/
def retryOnError : Bool := true

/-- The `metadata` object of a terminal stream event:
`{confidence, rag_used, matched_case_ids}`. -/
structure Metadata where
  confidence : ℚ
  rag_used : Bool
  matched_case_ids : List String
deriving DecidableEq, Repr

/-- One parsed SSE data object, carrying the fields `handleStreamEvent`
inspects; an absent field is `none` (JS `undefined`). -/
structure StreamEvent where
  status : Option String
  node : Option String
  response : Option String
  metadata : Option Metadata
  error : Option String
deriving DecidableEq, Repr

/-- JS truthiness of an optional string field: `undefined` and `""` are
falsy, every other string truthy. -/
def truthy : Option String → Bool
  | none => false
  | some s => !s.isEmpty

/-- The client-state fields `handleStreamEvent` and the wait loop read or
write. -/
structure ClientState where
  currentStreamResponse : Option String
  currentStreamMetadata : Option Metadata
  statusText : Option String
deriving DecidableEq, Repr

def initClientState : ClientState :=
  { currentStreamResponse := none
    currentStreamMetadata := none
    statusText := none }

/-- Embedded from frontend_deployment/chatbot.js, the `nodeMessages` table
of `updateTypingIndicator` (lines 729-735). -/
def nodeMessages : String → Option String
  | "state_analyzer" => some "상태 분석 중..."
  | "issue_classification" => some "문제 분류 중..."
  | "case_narrowing" => some "구체적인 케이스 확인 중..."
  | "reply_formulation" => some "응답 작성 중..."
  | "default" => some "응답을 기다리는 중..."
  | _ => none

/-- Embedded from frontend_deployment/chatbot.js, `updateTypingIndicator`
(lines 721-757): a falsy or unrecognized node name falls back to the
`default` key. -/
def typingKey (nodeName : Option String) : String :=
  match nodeName with
  | none => "default"
  | some n => if n ≠ "" ∧ (nodeMessages n).isSome then n else "default"

/-- Embedded from frontend_deployment/chatbot.js, `updateTypingIndicator`
(lines 721-757): the message selected for the (possibly defaulted) node key
becomes the status text. -/
def updateTypingIndicator (st : ClientState) (nodeName : Option String) :
    ClientState :=
  match nodeMessages (typingKey nodeName) with
  | some m => { st with statusText := some m }
  | none => st

/-- Embedded from frontend_deployment/chatbot.js, `handleStreamEvent`
(lines 697-719): branch on `status === "started"`, then on
`node && status === "processing"`, then on a truthy `response` (recording
it with its metadata), then on a truthy `error` (recording the generic
error message, not the raw error); anything else changes nothing. -/
def handleStreamEvent (st : ClientState) (data : StreamEvent) : ClientState :=
  if data.status = some "started" then st
  else if truthy data.node ∧ data.status = some "processing" then
    updateTypingIndicator st data.node
  else if truthy data.response then
    { st with
        currentStreamResponse := data.response
        currentStreamMetadata := data.metadata }
  else if truthy data.error then
    { st with currentStreamResponse := some generalError }
  else st

/-- Which branch of `handleStreamEvent` an event takes — mirrors its
condition chain exactly. -/
inductive StreamBranch where
  | started
  | progress
  | terminalResponse
  | terminalError
  | unhandled
deriving DecidableEq, Repr

def eventBranch (data : StreamEvent) : StreamBranch :=
  if data.status = some "started" then StreamBranch.started
  else if truthy data.node ∧ data.status = some "processing" then
    StreamBranch.progress
  else if truthy data.response then StreamBranch.terminalResponse
  else if truthy data.error then StreamBranch.terminalError
  else StreamBranch.unhandled

/-- Modelled from the spec: the terminal event of the streaming protocol
(§6) — `{response, metadata}` or `{error}`.  The backend stream producer is
not in the repository sources; only its consumer is. -/
inductive TerminalEvent where
  | success (response : String) (metadata : Metadata)
  | failure (error : String)
deriving DecidableEq, Repr

/-- Modelled from the spec: the `{status:"started"}` event. -/
def startedEvent : StreamEvent :=
  { status := some "started", node := none, response := none,
    metadata := none, error := none }

/-- Modelled from the spec: one progress event — status "processing" with
the stage name carried in the field `node`. -/
def progressEvent (stage : String) : StreamEvent :=
  { status := some "processing", node := some stage, response := none,
    metadata := none, error := none }

/-- Modelled from the spec: the terminal event as a wire object. -/
def terminalEventOf : TerminalEvent → StreamEvent
  | TerminalEvent.success r md =>
    { status := none, node := none, response := some r,
      metadata := some md, error := none }
  | TerminalEvent.failure e =>
    { status := none, node := none, response := none,
      metadata := none, error := some e }

/-- Modelled from the spec: the ordered event sequence of §6 — one started
event, zero or more progress events, then exactly one terminal event with
nothing after it. -/
def streamOf (stages : List String) (t : TerminalEvent) : List StreamEvent :=
  startedEvent :: (stages.map progressEvent ++ [terminalEventOf t])

/-- A well-formed terminal event carries a non-empty payload (a JS-truthy
`response` or `error` string). -/
def wfTerminal : TerminalEvent → Prop
  | TerminalEvent.success r _ => r ≠ ""
  | TerminalEvent.failure e => e ≠ ""

/-- The `handleStreamEvent` branch a terminal event lands in. -/
def terminalBranch : TerminalEvent → StreamBranch
  | TerminalEvent.success _ _ => StreamBranch.terminalResponse
  | TerminalEvent.failure _ => StreamBranch.terminalError

/-! ## Chat request retry loop
(frontend_deployment/chatbot.js `callChatAPI`, client.html `callChatAPI`) -/

/-- One fetch outcome as `callChatAPI` observes it: a thrown error (network
failure or a non-OK HTTP status) or a parsed JSON `{response, rag_used}`
body. -/
inductive AttemptResult where
  | failure
  | success (response : String) (rag_used : Bool)
deriving DecidableEq, Repr

/-- The request body `callChatAPI` serializes on every attempt. -/
structure ChatPayload where
  message : String
  session_id : String
deriving DecidableEq, Repr

/-- Embedded from frontend_deployment/chatbot.js, `callChatAPI` (lines
597-641); the inline client of client.html (lines 554-592) is identical up
to the `retryOnError` feature flag, which that client omits and this one
reads as `true`.  Every attempt POSTs the same `{message, session_id}`
body; on a thrown error, while `retryOnError` holds and
`retryCount < maxRetries`, the client waits `retryDelay` ms and recurses
with `retryCount + 1`; otherwise the error propagates to the caller.
`outcomes` is the sequence of fetch outcomes the network delivers; the
result pairs the final outcome (`none` = error surfaced) with the trace of
requests sent, each as (delay in ms waited since the previous attempt,
payload sent). -/
def callChatAPI (payload : ChatPayload) (retryCount : Nat)
    (outcomes : List AttemptResult) :
    Option (String × Bool) × List (Nat × ChatPayload) :=
  match outcomes with
  | [] => (none, [])
  | o :: os =>
    let delayBefore := if retryCount = 0 then 0 else ChatbotConfig_api.retryDelay
    match o with
    | AttemptResult.success r rag => (some (r, rag), [(delayBefore, payload)])
    | AttemptResult.failure =>
      if retryOnError = true ∧ retryCount < ChatbotConfig_api.maxRetries then
        let tail := callChatAPI payload (retryCount + 1) os
        (tail.1, (delayBefore, payload) :: tail.2)
      else (none, [(delayBefore, payload)])

/-! ## Streaming wait loop (frontend_deployment/chatbot.js `sendMessage`) -/

/-- Embedded from frontend_deployment/chatbot.js, `sendMessage` (lines
551-556): the polling loop — while no stream response is recorded and
`waitTime < 30000`, wait 100 ms and poll again; when `waitTime` hits 30000
the loop exits and the recorded response is checked once more.  `avail k`
is the value of `state.currentStreamResponse` observed at the k-th poll;
the result pairs the number of 100 ms waits performed with the final
observation. -/
def waitLoop (avail : Nat → Option String) : Nat → Nat → Nat × Option String
  | polls, 0 => (polls, avail polls)
  | polls, fuel + 1 =>
    match avail polls with
    | some r => (polls, some r)
    | none => waitLoop avail (polls + 1) fuel

/-- Embedded from frontend_deployment/chatbot.js, `sendMessage`: the loop
bound is 30000 ms in steps of 100 ms. -/
def sendMessageWait (avail : Nat → Option String) : Nat × Option String :=
  waitLoop avail 0 (30000 / 100)

/-- Embedded from frontend_deployment/chatbot.js, `sendMessage` (lines
558-583): the message shown to the user — the recorded stream response if
one arrived, otherwise the thrown timeout lands in the catch block which
shows the generic error message. -/
def sendMessageOutcome (avail : Nat → Option String) : String :=
  match (sendMessageWait avail).2 with
  | some r => r
  | none => generalError

/-- Claim C4: on any incoming message for a session whose turn count has
reached `max_conversation_turns` (20), the pipeline forces status
`escalated` and short-circuits directly to the escalation fallback message,
for every possible remainder of the pipeline — hence regardless of the
session's classification state. -/
theorem turn_budget_forces_escalation (s : Session) (now : Nat)
    (rest : Session → Session × String)
    (h : conversation_management.max_conversation_turns ≤ s.turn_count) :
    (processMessage s now rest).1.status = SessionStatus.escalated ∧
      (processMessage s now rest).2 = fallback_responses.max_turns_reached := by
  unfold processMessage checkSessionTimeout
  by_cases htime :
      conversation_management.session_timeout_minutes < now - s.last_active_at <;>
    simp [htime, h]

/-- Witness for C4: a concrete session at the 20-turn ceiling is escalated
with the `max_turns_reached` fallback, whatever the rest of the pipeline
would have replied. -/
theorem turn_budget_forces_escalation_witness :
    (processMessage { initialSession "s1" 0 with turn_count := 20 } 5
        (fun s => (s, "downstream"))).1.status = SessionStatus.escalated ∧
      (processMessage { initialSession "s1" 0 with turn_count := 20 } 5
        (fun s => (s, "downstream"))).2 = fallback_responses.max_turns_reached :=
  turn_budget_forces_escalation _ 5 _ (by decide)

/-- Helper: an accepted classification call carries a validated confidence at
or above the classification threshold. -/
theorem classifyStep_bounds {r : LLMResult} {t : String} {c : ℚ}
    (h : classifyStep r = some (t, c)) :
    issue_classification.confidence_threshold ≤ c ∧ 0 ≤ c ∧ c ≤ 1 := by
  cases r with
  | malformed => simp [classifyStep] at h
  | classified it conf =>
    cases it with
    | none => simp [classifyStep] at h
    | some t0 =>
      by_cases h01 : 0 ≤ conf ∧ conf ≤ 1
      · by_cases hthr : issue_classification.confidence_threshold ≤ conf
        · simp [classifyStep, validateConfidence, h01, hthr] at h
          obtain ⟨ht, hc⟩ := h
          subst hc
          exact ⟨hthr, h01⟩
        · simp [classifyStep, validateConfidence, h01, hthr] at h
      · simp [classifyStep, validateConfidence, h01] at h

/-- Helper: any accepted result of the retry loop satisfies the same
confidence bounds. -/
theorem classifyConsume_accept_bounds :
    ∀ (outs : List LLMResult) (f0 f : Nat) (t : String) (c : ℚ),
      classifyConsume f0 outs = (some (t, c), f) →
      issue_classification.confidence_threshold ≤ c ∧ 0 ≤ c ∧ c ≤ 1 := by
  intro outs
  induction outs with
  | nil =>
    intro f0 f t c h
    simp [classifyConsume] at h
  | cons r rs ih =>
    intro f0 f t c h
    unfold classifyConsume at h
    cases hr : classifyStep r with
    | some tc =>
      rw [hr] at h
      have htc : tc = (t, c) := by
        have := congrArg Prod.fst h
        simpa using this
      exact classifyStep_bounds (htc ▸ hr)
    | none =>
      rw [hr] at h
      exact ih _ _ _ _ h

/-- Claim C2: classification acceptance is confidence-gated at the 0.7
threshold; a rejected (below-threshold or malformed) output increments the
per-session failure counter and the loop retries on the remaining outputs;
a turn consumes at most `max_classification_attempts = 2` outputs; and once
the attempts are exhausted without acceptance the reply is the
clarification fallback and `current_issue_type` is left as it was (in
particular unset stays unset). -/
theorem classification_gate_and_retry (s : Session) (outs : List LLMResult)
    (r : LLMResult) (rs : List LLMResult) (f0 : Nat)
    (hrej : classifyStep r = none) :
    (∀ t c f, classifyTurn f0 outs = (some (t, c), f) →
        issue_classification.confidence_threshold ≤ c) ∧
    classifyConsume f0 (r :: rs) = classifyConsume (f0 + 1) rs ∧
    (outs.take issue_classification.max_classification_attempts).length ≤
        issue_classification.max_classification_attempts ∧
    ((classifyTurn s.classification_failures outs).1 = none →
      (applyClassification s outs).2 = some fallback_responses.classification_unclear ∧
      (applyClassification s outs).1.current_issue_type = s.current_issue_type) := by
  refine ⟨?_, ?_, ?_, ?_⟩
  · intro t c f h
    exact (classifyConsume_accept_bounds _ _ _ _ _ h).1
  · simp [classifyConsume, hrej]
  · exact List.length_take_le _ _
  · intro hnone
    unfold applyClassification
    cases hct : classifyTurn s.classification_failures outs with
    | mk res f =>
      rw [hct] at hnone
      simp at hnone
      subst hnone
      simp

/-- Witness for C2: a malformed output is a rejected attempt; two malformed
outputs on a fresh session exhaust the two attempts and produce the
clarification fallback with the issue type still unset. -/
theorem classification_gate_and_retry_witness :
    classifyConsume 0 [LLMResult.malformed] = classifyConsume 1 [] ∧
    (applyClassification (initialSession "s2" 0)
        [LLMResult.malformed, LLMResult.malformed]).2 =
      some fallback_responses.classification_unclear ∧
    (applyClassification (initialSession "s2" 0)
        [LLMResult.malformed, LLMResult.malformed]).1.current_issue_type = none := by
  have h := classification_gate_and_retry (initialSession "s2" 0)
      [LLMResult.malformed, LLMResult.malformed] LLMResult.malformed [] 0 (by decide)
  have h4 := h.2.2.2 (by decide)
  exact ⟨h.2.1, h4.1, h4.2⟩

/-- Claim C8: three consecutive malformed model outputs at the
classification stage — two on the first turn (exhausting the attempt
budget) and the third on the next turn — yield the clarification fallback
reply each time, a classification failure counter equal to 3 afterwards,
and no issue type set. -/
theorem three_malformed_outputs_fallback :
    (applyClassification (initialSession "s3" 0)
        [LLMResult.malformed, LLMResult.malformed]).2 =
      some fallback_responses.classification_unclear ∧
    (applyClassification (applyClassification (initialSession "s3" 0)
        [LLMResult.malformed, LLMResult.malformed]).1 [LLMResult.malformed]).2 =
      some fallback_responses.classification_unclear ∧
    (applyClassification (applyClassification (initialSession "s3" 0)
        [LLMResult.malformed, LLMResult.malformed]).1
        [LLMResult.malformed]).1.classification_failures = 3 ∧
    (applyClassification (applyClassification (initialSession "s3" 0)
        [LLMResult.malformed, LLMResult.malformed]).1
        [LLMResult.malformed]).1.current_issue_type = none := by
  refine ⟨rfl, rfl, rfl, rfl⟩

/-- Claim C6: a malformed topic-continuity output defaults to
`is_continuation = true` with a parse failure logged; the stage consumes
exactly one model output and never retries (the remaining outputs are
returned untouched), and the session — its current issue state included —
is kept unchanged. -/
theorem continuity_parse_failure_defaults (s : Session)
    (rest : List ContinuityResult) :
    analyzeContinuity ContinuityResult.malformed = (true, true) ∧
    applyContinuity s (ContinuityResult.malformed :: rest) = (s, true, rest) := by
  exact ⟨rfl, rfl⟩

/-- Claim C3: the case-narrowing resolution policy on a non-empty candidate
list whose top candidate clears the floor: (a) a clear winner — exactly one
candidate at or above the 0.8 resolution threshold, none within the
tie-break margin — resolves to the top candidate's case id and hands the
turn to solution formulation; (b) without a clear winner, while fewer than
`max_questions_per_case = 4` questions have been asked and an unasked
question exists, exactly one not-yet-asked clarifying question is emitted;
(c) once the question budget is exhausted without resolution, the session
escalates. -/
theorem narrowing_resolution_policy (floor margin : ℚ) (s : Session)
    (questions : List String) (top : Candidate) (others : List Candidate)
    (hc : s.candidate_cases = top :: others) (hfloor : floor ≤ top.confidence) :
    (clearWinner margin top others →
      narrowStep floor margin s questions = NarrowingAction.resolve top.case_id ∧
      nextStageOf (narrowStep floor margin s questions) =
        NextStage.replyFormulationSolution top.case_id) ∧
    (∀ q, ¬ clearWinner margin top others →
      s.questions_asked.length < case_narrowing.max_questions_per_case →
      questions.find? (fun x => !s.questions_asked.contains x) = some q →
      narrowStep floor margin s questions = NarrowingAction.ask q ∧
      q ∈ questions ∧ q ∉ s.questions_asked) ∧
    (¬ clearWinner margin top others →
      case_narrowing.max_questions_per_case ≤ s.questions_asked.length →
      narrowStep floor margin s questions = NarrowingAction.escalate ∧
      nextStageOf (narrowStep floor margin s questions) = NextStage.escalated) := by
  have hnl : ¬ top.confidence < floor := not_lt.mpr hfloor
  refine ⟨?_, ?_, ?_⟩
  · intro hwin
    have hstep : narrowStep floor margin s questions =
        NarrowingAction.resolve top.case_id := by
      simp [narrowStep, hc, hnl, hwin]
    exact ⟨hstep, by rw [hstep]; rfl⟩
  · intro q hnw hbudget hfind
    have hfind2 : questions.find? (fun x => !decide (x ∈ s.questions_asked)) = some q := by
      simpa using hfind
    have hstep : narrowStep floor margin s questions = NarrowingAction.ask q := by
      simp [narrowStep, hc, hnl, hnw, hbudget, hfind2]
    refine ⟨hstep, List.mem_of_find?_eq_some hfind, ?_⟩
    have hq := List.find?_some hfind
    simp at hq
    exact hq
  · intro hnw hbudget
    have hstep : narrowStep floor margin s questions = NarrowingAction.escalate := by
      simp [narrowStep, hc, hnl, hnw, not_lt.mpr hbudget]
    exact ⟨hstep, by rw [hstep]; rfl⟩

/-- Witness for C3: with floor 1/2 and margin 1/10 — a dominant 0.9
candidate resolves; near-tied 0.85/0.82 candidates draw the one unasked
question; the same tie with the four-question budget spent escalates. -/
theorem narrowing_resolution_policy_witness :
    narrowStep (1/2) (1/10)
        { initialSession "n1" 0 with
            candidate_cases := [Candidate.mk "case-a" (9/10), Candidate.mk "case-b" (1/2)] }
        ["q1"] = NarrowingAction.resolve "case-a" ∧
    narrowStep (1/2) (1/10)
        { initialSession "n2" 0 with
            candidate_cases := [Candidate.mk "case-a" (85/100), Candidate.mk "case-b" (82/100)] }
        ["q1"] = NarrowingAction.ask "q1" ∧
    narrowStep (1/2) (1/10)
        { initialSession "n3" 0 with
            candidate_cases := [Candidate.mk "case-a" (85/100), Candidate.mk "case-b" (82/100)]
            questions_asked := ["q1", "q2", "q3", "q4"] }
        ["q1"] = NarrowingAction.escalate := by
  refine ⟨?_, ?_, ?_⟩
  · exact ((narrowing_resolution_policy (1/2) (1/10)
      { initialSession "n1" 0 with
          candidate_cases := [Candidate.mk "case-a" (9/10), Candidate.mk "case-b" (1/2)] }
      ["q1"] (Candidate.mk "case-a" (9/10)) [Candidate.mk "case-b" (1/2)] rfl
      (by norm_num)).1
      (by norm_num [clearWinner, case_narrowing, List.forall_mem_cons])).1
  · exact ((narrowing_resolution_policy (1/2) (1/10)
      { initialSession "n2" 0 with
          candidate_cases := [Candidate.mk "case-a" (85/100), Candidate.mk "case-b" (82/100)] }
      ["q1"] (Candidate.mk "case-a" (85/100)) [Candidate.mk "case-b" (82/100)] rfl
      (by norm_num)).2.1 "q1"
      (by intro hwin
          have := hwin.2.1 (Candidate.mk "case-b" (82/100)) (by simp)
          norm_num [case_narrowing] at this)
      (by simp [initialSession, case_narrowing])
      rfl).1
  · exact ((narrowing_resolution_policy (1/2) (1/10)
      { initialSession "n3" 0 with
          candidate_cases := [Candidate.mk "case-a" (85/100), Candidate.mk "case-b" (82/100)]
          questions_asked := ["q1", "q2", "q3", "q4"] }
      ["q1"] (Candidate.mk "case-a" (85/100)) [Candidate.mk "case-b" (82/100)] rfl
      (by norm_num)).2.2
      (by intro hwin
          have := hwin.2.1 (Candidate.mk "case-b" (82/100)) (by simp)
          norm_num [case_narrowing] at this)
      (by simp [case_narrowing])).1

/-- Claim C5: on a session load where the idle time exceeds
`session_timeout_minutes = 30`, the session is marked `timed_out`, its
current issue, candidate list and resolved case are cleared (the incoming
message starts over from a fresh classification state), and — provided the
turn ceiling is not also hit — the response is the timeout notice followed
by the reply computed from the reset session, not one reusing stale
candidates. -/
theorem session_timeout_resets (s : Session) (now : Nat)
    (rest : Session → Session × String)
    (hidle : conversation_management.session_timeout_minutes < now - s.last_active_at)
    (hturn : s.turn_count < conversation_management.max_conversation_turns) :
    (checkSessionTimeout s now).1.status = SessionStatus.timed_out ∧
    (checkSessionTimeout s now).1.current_issue_type = none ∧
    (checkSessionTimeout s now).1.candidate_cases = [] ∧
    (checkSessionTimeout s now).1.resolved_case_id = none ∧
    (checkSessionTimeout s now).2 = some fallback_responses.session_timeout ∧
    (processMessage s now rest).2 =
      fallback_responses.session_timeout ++
        ("\n" ++ (rest (checkSessionTimeout s now).1).2) := by
  have hno : ¬ conversation_management.max_conversation_turns ≤ s.turn_count :=
    not_le.mpr hturn
  refine ⟨?_, ?_, ?_, ?_, ?_, ?_⟩ <;>
    simp [checkSessionTimeout, processMessage, hidle, hno, String.append_assoc]

/-- Witness for C5: a session stale by 31 minutes with a pending issue and
candidates is reset and answered with the timeout notice first. -/
theorem session_timeout_resets_witness :
    (checkSessionTimeout
        { initialSession "t1" 0 with
            current_issue_type := some "login_failure"
            candidate_cases := [Candidate.mk "case-a" (9/10)] } 31).1.status =
      SessionStatus.timed_out ∧
    (checkSessionTimeout
        { initialSession "t1" 0 with
            current_issue_type := some "login_failure"
            candidate_cases := [Candidate.mk "case-a" (9/10)] } 31).1.candidate_cases = [] ∧
    (processMessage
        { initialSession "t1" 0 with
            current_issue_type := some "login_failure"
            candidate_cases := [Candidate.mk "case-a" (9/10)] } 31
        (fun s => (s, "fresh-start"))).2 =
      fallback_responses.session_timeout ++ ("\n" ++ "fresh-start") := by
  have h := session_timeout_resets
      { initialSession "t1" 0 with
          current_issue_type := some "login_failure"
          candidate_cases := [Candidate.mk "case-a" (9/10)] } 31
      (fun s => (s, "fresh-start")) (by decide) (by decide)
  exact ⟨h.1, h.2.2.1, h.2.2.2.2.2⟩

/-- Helper: a validated confidence lies in [0,1]. -/
theorem validateConfidence_bounds {x c : ℚ} (h : validateConfidence x = some c) :
    0 ≤ c ∧ c ≤ 1 := by
  unfold validateConfidence at h
  by_cases h01 : 0 ≤ x ∧ x ≤ 1
  · rw [if_pos h01] at h
    obtain rfl := Option.some.inj h
    exact h01
  · rw [if_neg h01] at h
    exact absurd h (by simp)

/-- Helper: a classification turn never touches the candidate list. -/
theorem applyClassification_candidates (s : Session) (outs : List LLMResult) :
    (applyClassification s outs).1.candidate_cases = s.candidate_cases := by
  unfold applyClassification
  rcases h : classifyTurn s.classification_failures outs with ⟨res, f⟩
  cases res with
  | none => simp
  | some tc => cases tc; simp

/-- Helper: a continuity verdict either keeps or empties the candidate
list. -/
theorem applyContinuity_candidates (s : Session) (rs : List ContinuityResult) :
    (applyContinuity s rs).1.candidate_cases = s.candidate_cases ∨
      (applyContinuity s rs).1.candidate_cases = [] := by
  cases rs with
  | nil => left; rfl
  | cons r rest =>
    by_cases hv : (analyzeContinuity r).1 = true
    · left; simp [applyContinuity, hv]
    · right; simp [applyContinuity, hv]

/-- Helper: the idle check either keeps or empties the candidate list. -/
theorem checkSessionTimeout_candidates (s : Session) (now : Nat) :
    (checkSessionTimeout s now).1.candidate_cases = s.candidate_cases ∨
      (checkSessionTimeout s now).1.candidate_cases = [] := by
  unfold checkSessionTimeout
  split
  · right; rfl
  · left; rfl

/-- Helper: every candidate built by case matching has a validated
confidence. -/
theorem buildCandidates_mem_bounds (raw : List (String × ℚ)) (c : Candidate)
    (hm : c ∈ buildCandidates raw) : 0 ≤ c.confidence ∧ c.confidence ≤ 1 := by
  unfold buildCandidates at hm
  rw [List.mem_insertionSort] at hm
  obtain ⟨p, hp, hval⟩ := List.mem_filterMap.mp hm
  obtain ⟨v, hv, hc⟩ := Option.map_eq_some'.mp hval
  subst hc
  exact validateConfidence_bounds hv

/-- Claim C7: every accepted classification confidence and every matched-case
confidence lies in [0,1], and over all reachable session states the
candidate case list is sorted in descending order of confidence. -/
theorem confidence_and_sorting_invariants :
    (∀ (f0 : Nat) (outs : List LLMResult) (t : String) (c : ℚ) (f : Nat),
        classifyConsume f0 outs = (some (t, c), f) → 0 ≤ c ∧ c ≤ 1) ∧
    (∀ (raw : List (String × ℚ)) (c : Candidate), c ∈ buildCandidates raw →
        0 ≤ c.confidence ∧ c.confidence ≤ 1) ∧
    (∀ s : Session, Reachable s → List.Sorted candGE s.candidate_cases) := by
  refine ⟨?_, ?_, ?_⟩
  · intro f0 outs t c f h
    exact (classifyConsume_accept_bounds outs f0 f t c h).2
  · exact fun raw c h => buildCandidates_mem_bounds raw c h
  · intro s h
    induction h with
    | init id now => exact List.sorted_nil
    | timeout s now _ ih =>
      rcases checkSessionTimeout_candidates s now with he | he <;> rw [he]
      · exact ih
      · exact List.sorted_nil
    | forceEscalate s _ ih => exact ih
    | continuity s rs _ ih =>
      rcases applyContinuity_candidates s rs with he | he <;> rw [he]
      · exact ih
      · exact List.sorted_nil
    | classify s outs _ ih =>
      rw [applyClassification_candidates]
      exact ih
    | matchCases s raw _ ih =>
      exact List.sorted_insertionSort candGE _
    | askQuestion s q _ ih => exact ih
    | resolve s cid _ ih => exact ih
    | acceptTurn s now _ ih => exact ih

/-- Witness for C7: an accepted classification at confidence 0.9 is within
[0,1], and the candidate list built from two matched cases on a fresh
session is sorted descending. -/
theorem confidence_and_sorting_invariants_witness :
    ((0:ℚ) ≤ 9/10 ∧ (9:ℚ)/10 ≤ 1) ∧
    List.Sorted candGE (setCandidates (initialSession "w1" 0)
        [("case-a", 9/10), ("case-b", 1/2)]).candidate_cases := by
  constructor
  · exact confidence_and_sorting_invariants.1 0
      [LLMResult.classified (some "login_failure") (9/10)] "login_failure" (9/10) 0
      (by norm_num [classifyConsume, classifyStep, validateConfidence, issue_classification])
  · exact confidence_and_sorting_invariants.2.2 _
      (Reachable.matchCases (initialSession "w1" 0) [("case-a", 9/10), ("case-b", 1/2)]
        (Reachable.init "w1" 0))

/-- Helper: the started event leaves the client state untouched. -/
theorem handleStreamEvent_started (st : ClientState) :
    handleStreamEvent st startedEvent = st := by
  simp [handleStreamEvent, startedEvent]

/-- Helper: the typing-indicator update touches only the status text. -/
theorem updateTypingIndicator_fields (st : ClientState) (nodeName : Option String) :
    (updateTypingIndicator st nodeName).currentStreamResponse =
        st.currentStreamResponse ∧
      (updateTypingIndicator st nodeName).currentStreamMetadata =
        st.currentStreamMetadata := by
  unfold updateTypingIndicator
  constructor <;> (split <;> rfl)

/-- Helper: a progress event routes to the typing-indicator update when its
node is truthy and is otherwise ignored. -/
theorem handleStreamEvent_progress (st : ClientState) (n : String) :
    handleStreamEvent st (progressEvent n) =
      if truthy (some n) then updateTypingIndicator st (some n) else st := by
  cases h : truthy (some n) with
  | true => simp [handleStreamEvent, progressEvent, h]
  | false =>
    have hie : n.isEmpty = true := by simpa [truthy] using h
    simp [handleStreamEvent, progressEvent, truthy, hie]

/-- Helper: a progress event never changes the recorded response or
metadata. -/
theorem handleStreamEvent_progress_fields (st : ClientState) (n : String) :
    (handleStreamEvent st (progressEvent n)).currentStreamResponse =
        st.currentStreamResponse ∧
      (handleStreamEvent st (progressEvent n)).currentStreamMetadata =
        st.currentStreamMetadata := by
  rw [handleStreamEvent_progress]
  cases h : truthy (some n) with
  | true =>
    rw [if_pos rfl]
    exact updateTypingIndicator_fields st (some n)
  | false =>
    rw [if_neg (by simp)]
    exact ⟨rfl, rfl⟩

/-- Helper: folding the handler over any run of progress events keeps the
recorded response and metadata. -/
theorem foldl_progress_fields (stages : List String) :
    ∀ st : ClientState,
      (((stages.map progressEvent).foldl handleStreamEvent st).currentStreamResponse =
          st.currentStreamResponse) ∧
        (((stages.map progressEvent).foldl handleStreamEvent st).currentStreamMetadata =
          st.currentStreamMetadata) := by
  induction stages with
  | nil => intro st; exact ⟨rfl, rfl⟩
  | cons n ns ih =>
    intro st
    simp only [List.map_cons, List.foldl_cons]
    obtain ⟨h1, h2⟩ := ih (handleStreamEvent st (progressEvent n))
    obtain ⟨g1, g2⟩ := handleStreamEvent_progress_fields st n
    exact ⟨h1.trans g1, h2.trans g2⟩

/-- Helper: a well-formed terminal event is recorded by the handler — the
response with its metadata, or the generic error message in place of a raw
error. -/
theorem handleStreamEvent_terminal (st : ClientState) :
    (∀ r md, r ≠ "" →
      handleStreamEvent st (terminalEventOf (TerminalEvent.success r md)) =
        { st with currentStreamResponse := some r, currentStreamMetadata := some md }) ∧
    (∀ e, e ≠ "" →
      handleStreamEvent st (terminalEventOf (TerminalEvent.failure e)) =
        { st with currentStreamResponse := some generalError }) := by
  constructor
  · intro r md hr
    simp [handleStreamEvent, terminalEventOf, truthy, String.isEmpty_iff, hr]
  · intro e he
    simp [handleStreamEvent, terminalEventOf, truthy, String.isEmpty_iff, he]

/-- Helper: branch classification of the spec's event shapes. -/
theorem eventBranch_shapes :
    eventBranch startedEvent = StreamBranch.started ∧
    (∀ n : String, n ≠ "" → eventBranch (progressEvent n) = StreamBranch.progress) ∧
    (∀ t : TerminalEvent, wfTerminal t →
      eventBranch (terminalEventOf t) = terminalBranch t) := by
  refine ⟨by simp [eventBranch, startedEvent], ?_, ?_⟩
  · intro n hn
    simp [eventBranch, progressEvent, truthy, String.isEmpty_iff, hn]
  · intro t ht
    cases t with
    | success r md =>
      simp [eventBranch, terminalEventOf, terminalBranch, truthy,
        String.isEmpty_iff, ht, wfTerminal] at ht ⊢
      simp [ht]
    | failure e =>
      simp [eventBranch, terminalEventOf, terminalBranch, truthy,
        String.isEmpty_iff, wfTerminal] at ht ⊢
      simp [ht]

/-- Claim C1: a spec-shaped stream — one started event, zero or more
progress events carrying the stage name in `node`, one terminal event last
and nothing after it — is accepted by the client's `handleStreamEvent` with
each event landing in exactly its intended branch; folding the handler over
the stream records the terminal response with its metadata, or the generic
error message for an error terminal. -/
theorem stream_event_sequence (stages : List String) (t : TerminalEvent)
    (hstages : ∀ n ∈ stages, n ≠ "") (ht : wfTerminal t) :
    (streamOf stages t).map eventBranch =
      StreamBranch.started ::
        (stages.map (fun _ => StreamBranch.progress) ++ [terminalBranch t]) ∧
    (streamOf stages t).getLast? = some (terminalEventOf t) ∧
    (∀ r md, t = TerminalEvent.success r md →
      ((streamOf stages t).foldl handleStreamEvent
          initClientState).currentStreamResponse = some r ∧
      ((streamOf stages t).foldl handleStreamEvent
          initClientState).currentStreamMetadata = some md) ∧
    (∀ e, t = TerminalEvent.failure e →
      ((streamOf stages t).foldl handleStreamEvent
          initClientState).currentStreamResponse = some generalError) := by
  obtain ⟨hb1, hb2, hb3⟩ := eventBranch_shapes
  have hfold : (streamOf stages t).foldl handleStreamEvent initClientState =
      handleStreamEvent
        ((stages.map progressEvent).foldl handleStreamEvent initClientState)
        (terminalEventOf t) := by
    simp [streamOf, List.foldl_cons, List.foldl_append, handleStreamEvent_started]
  refine ⟨?_, ?_, ?_, ?_⟩
  · simp only [streamOf, List.map_cons, List.map_append, List.map_map,
      List.map_nil]
    rw [hb1, hb3 t ht]
    have hmap : stages.map (eventBranch ∘ progressEvent) =
        stages.map (fun _ => StreamBranch.progress) :=
      List.map_congr_left (fun n hn => hb2 n (hstages n hn))
    rw [hmap]
  · show ((startedEvent :: stages.map progressEvent) ++
        [terminalEventOf t]).getLast? = some (terminalEventOf t)
    exact List.getLast?_concat _
  · intro r md heq
    subst heq
    rw [hfold, (handleStreamEvent_terminal _).1 r md ht]
    exact ⟨rfl, rfl⟩
  · intro e heq
    subst heq
    rw [hfold, (handleStreamEvent_terminal _).2 e ht]

/-- Witness for C1: a concrete two-stage stream ending in a solution
response is fully consumed with the response and metadata recorded and each
event in its intended branch; a stream ending in an error event leaves the
generic error message. -/
theorem stream_event_sequence_witness :
    ((streamOf ["state_analyzer", "case_narrowing"]
        (TerminalEvent.success "해결 방법 안내"
          (Metadata.mk (9/10) true ["case-a"]))).foldl handleStreamEvent
        initClientState).currentStreamResponse = some "해결 방법 안내" ∧
    ((streamOf ["state_analyzer", "case_narrowing"]
        (TerminalEvent.success "해결 방법 안내"
          (Metadata.mk (9/10) true ["case-a"]))).foldl handleStreamEvent
        initClientState).currentStreamMetadata =
      some (Metadata.mk (9/10) true ["case-a"]) ∧
    (streamOf ["state_analyzer", "case_narrowing"]
        (TerminalEvent.success "해결 방법 안내"
          (Metadata.mk (9/10) true ["case-a"]))).map eventBranch =
      StreamBranch.started :: (["state_analyzer", "case_narrowing"].map
        (fun _ => StreamBranch.progress) ++ [StreamBranch.terminalResponse]) ∧
    ((streamOf [] (TerminalEvent.failure "backend exploded")).foldl
        handleStreamEvent initClientState).currentStreamResponse =
      some generalError := by
  have h1 := stream_event_sequence ["state_analyzer", "case_narrowing"]
      (TerminalEvent.success "해결 방법 안내" (Metadata.mk (9/10) true ["case-a"]))
      (by intro n hn
          simp at hn
          rcases hn with rfl | rfl <;> decide)
      (by show "해결 방법 안내" ≠ ""; decide)
  have h2 := stream_event_sequence [] (TerminalEvent.failure "backend exploded")
      (by intro n hn; simp at hn)
      (by show "backend exploded" ≠ ""; decide)
  obtain ⟨hr, hm⟩ := h1.2.2.1 "해결 방법 안내" (Metadata.mk (9/10) true ["case-a"]) rfl
  exact ⟨hr, hm, h1.1, h2.2.2.2 "backend exploded" rfl⟩

/-- Helper: every request in the trace carries the original payload. -/
theorem callChatAPI_payload_const (payload : ChatPayload) :
    ∀ (outcomes : List AttemptResult) (rc : Nat),
      ∀ p ∈ (callChatAPI payload rc outcomes).2, p.2 = payload := by
  intro outcomes
  induction outcomes with
  | nil => intro rc p hp; simp [callChatAPI] at hp
  | cons o os ih =>
    intro rc p hp
    cases o with
    | success r rag =>
      simp [callChatAPI] at hp
      rw [hp]
    | failure =>
      by_cases hrc : retryOnError = true ∧ rc < ChatbotConfig_api.maxRetries
      · simp [callChatAPI, hrc] at hp
        rcases hp with hp | hp
        · rw [hp]
        · exact ih (rc + 1) p hp
      · simp [callChatAPI, hrc] at hp
        rw [hp]

/-- Helper: starting from retry count `rc ≤ maxRetries`, at most
`maxRetries + 1 - rc` requests are sent. -/
theorem callChatAPI_trace_bound (payload : ChatPayload) :
    ∀ (outcomes : List AttemptResult) (rc : Nat),
      rc ≤ ChatbotConfig_api.maxRetries →
      (callChatAPI payload rc outcomes).2.length ≤
        ChatbotConfig_api.maxRetries + 1 - rc := by
  intro outcomes
  induction outcomes with
  | nil => intro rc _; simp [callChatAPI]
  | cons o os ih =>
    intro rc hrc
    cases o with
    | success r rag =>
      simp [callChatAPI]
      omega
    | failure =>
      by_cases hlt : rc < ChatbotConfig_api.maxRetries
      · have h := ih (rc + 1) hlt
        simp [callChatAPI, retryOnError, hlt]
        omega
      · simp [callChatAPI, retryOnError, hlt]
        omega

/-- Helper: every retry request (any request after the first) waits exactly
`retryDelay` ms first. -/
theorem callChatAPI_retry_delay (payload : ChatPayload) :
    ∀ (outcomes : List AttemptResult) (rc : Nat), 1 ≤ rc →
      ∀ p ∈ (callChatAPI payload rc outcomes).2,
        p.1 = ChatbotConfig_api.retryDelay := by
  intro outcomes
  induction outcomes with
  | nil => intro rc _ p hp; simp [callChatAPI] at hp
  | cons o os ih =>
    intro rc hrc p hp
    have hrc0 : ¬ rc = 0 := by omega
    cases o with
    | success r rag =>
      simp [callChatAPI, hrc0] at hp
      rw [hp]
    | failure =>
      by_cases hlt : retryOnError = true ∧ rc < ChatbotConfig_api.maxRetries
      · simp [callChatAPI, hrc0, hlt] at hp
        rcases hp with hp | hp
        · rw [hp]
        · exact ih (rc + 1) (by omega) p hp
      · simp [callChatAPI, hrc0, hlt] at hp
        rw [hp]

/-- Helper: on an all-failure network with enough outcomes, the attempts are
fully spent: the error surfaces and exactly `maxRetries + 1 - rc` requests
go out. -/
theorem callChatAPI_all_failures (payload : ChatPayload) :
    ∀ (outcomes : List AttemptResult) (rc : Nat),
      rc ≤ ChatbotConfig_api.maxRetries →
      (∀ o ∈ outcomes, o = AttemptResult.failure) →
      ChatbotConfig_api.maxRetries + 1 - rc ≤ outcomes.length →
      (callChatAPI payload rc outcomes).1 = none ∧
        (callChatAPI payload rc outcomes).2.length =
          ChatbotConfig_api.maxRetries + 1 - rc := by
  intro outcomes
  induction outcomes with
  | nil =>
    intro rc hrc _ hlen
    simp at hlen
    omega
  | cons o os ih =>
    intro rc hrc hall hlen
    have ho : o = AttemptResult.failure := hall o (List.mem_cons_self o os)
    subst ho
    by_cases hlt : rc < ChatbotConfig_api.maxRetries
    · have h := ih (rc + 1) hlt (fun x hx => hall x (List.mem_cons_of_mem _ hx))
        (by simp at hlen ⊢; omega)
      simp [callChatAPI, retryOnError, hlt, h.1, h.2]
      omega
    · simp [callChatAPI, retryOnError, hlt]
      omega

/-- Claim C9: every chat request failure is retried with the identical
`{message, session_id}` payload after a fixed `retryDelay = 1000` ms wait,
up to `maxRetries = 3` additional attempts — so at most four requests go
out, every one carrying the same payload, and on a network failing at least
four times the error finally surfaces with exactly four duplicate
submissions sent. -/
theorem chat_retry_policy (payload : ChatPayload) (outcomes : List AttemptResult) :
    (∀ p ∈ (callChatAPI payload 0 outcomes).2, p.2 = payload) ∧
    (callChatAPI payload 0 outcomes).2.length ≤ ChatbotConfig_api.maxRetries + 1 ∧
    (∀ p ∈ (callChatAPI payload 0 outcomes).2.tail,
      p.1 = ChatbotConfig_api.retryDelay) ∧
    ((∀ o ∈ outcomes, o = AttemptResult.failure) →
      ChatbotConfig_api.maxRetries + 1 ≤ outcomes.length →
      (callChatAPI payload 0 outcomes).1 = none ∧
        (callChatAPI payload 0 outcomes).2.length =
          ChatbotConfig_api.maxRetries + 1) := by
  refine ⟨?_, ?_, ?_, ?_⟩
  · exact callChatAPI_payload_const payload outcomes 0
  · simpa using callChatAPI_trace_bound payload outcomes 0 (Nat.zero_le _)
  · cases outcomes with
    | nil => intro p hp; simp [callChatAPI] at hp
    | cons o os =>
      cases o with
      | success r rag => intro p hp; simp [callChatAPI] at hp
      | failure =>
        intro p hp
        simp [callChatAPI, retryOnError, ChatbotConfig_api] at hp
        exact callChatAPI_retry_delay payload os 1 (le_refl 1) p hp
  · intro hall hlen
    have h := callChatAPI_all_failures payload outcomes 0 (Nat.zero_le _) hall
      (by simpa using hlen)
    simpa using h

/-- Witness for C9: four straight failures on a concrete payload exhaust
the three retries, surface the error, and send exactly four requests, the
first of which carries the original payload. -/
theorem chat_retry_policy_witness :
    (callChatAPI (ChatPayload.mk "로그인이 안돼요" "session_1") 0
        (List.replicate 4 AttemptResult.failure)).1 = none ∧
    (callChatAPI (ChatPayload.mk "로그인이 안돼요" "session_1") 0
        (List.replicate 4 AttemptResult.failure)).2.length = 4 ∧
    (0, ChatPayload.mk "로그인이 안돼요" "session_1").2 =
      ChatPayload.mk "로그인이 안돼요" "session_1" := by
  have h := chat_retry_policy (ChatPayload.mk "로그인이 안돼요" "session_1")
      (List.replicate 4 AttemptResult.failure)
  have h4 := h.2.2.2 (by decide) (by decide)
  refine ⟨h4.1, h4.2, ?_⟩
  exact h.1 (0, ChatPayload.mk "로그인이 안돼요" "session_1") (by decide)

/-- Helper: the wait loop performs at most `fuel` additional waits. -/
theorem waitLoop_polls_le (avail : Nat → Option String) :
    ∀ (fuel polls : Nat), (waitLoop avail polls fuel).1 ≤ polls + fuel := by
  intro fuel
  induction fuel with
  | zero => intro polls; simp [waitLoop]
  | succ n ih =>
    intro polls
    cases h : avail polls with
    | some r => simp [waitLoop, h]
    | none =>
      have hrec := ih (polls + 1)
      simp [waitLoop, h]
      omega

/-- Claim C10: the client performs at most 300 polls of 100 ms — 30000 ms —
waiting for a terminal response; when none arrives the user is shown the
generic error message, and an `{error}` terminal event likewise leaves the
generic error message (never the raw error text) as the recorded
response. -/
theorem stream_wait_bound (avail : Nat → Option String) (st : ClientState)
    (e : String) (he : e ≠ "") :
    (sendMessageWait avail).1 ≤ 300 ∧
    100 * (sendMessageWait avail).1 ≤ 30000 ∧
    ((sendMessageWait avail).2 = none →
      sendMessageOutcome avail = generalError) ∧
    (handleStreamEvent st
        (terminalEventOf (TerminalEvent.failure e))).currentStreamResponse =
      some generalError := by
  have hb : (sendMessageWait avail).1 ≤ 300 := by
    have h := waitLoop_polls_le avail (30000 / 100) 0
    simpa [sendMessageWait] using h
  refine ⟨hb, by omega, ?_, ?_⟩
  · intro hnone
    unfold sendMessageOutcome
    rw [hnone]
  · rw [(handleStreamEvent_terminal st).2 e he]

/-- Witness for C10: a stream that never delivers a response ends in the
generic error message, and a concrete error event records the generic error
message. -/
theorem stream_wait_bound_witness :
    sendMessageOutcome (fun _ => none) = generalError ∧
    (handleStreamEvent initClientState
        (terminalEventOf
          (TerminalEvent.failure "stream failed"))).currentStreamResponse =
      some generalError := by
  have h := stream_wait_bound (fun _ => none) initClientState "stream failed"
      (by decide)
  exact ⟨h.2.2.1 rfl, h.2.2.2⟩

end OSSChatbot
